import Mathlib

/-!
Verification development for the research-to-app-trials repository.

The repository wires a fixed multi-step workflow definition
(`researchToAppFlow`, src/unnamed/part_002) to three LLM backend adapters
(`ollamaAdapter`, `vllmAdapter`, `tgiAdapter`, src/unnamed/part_001) which are
registered with the bilko-flow engine by `registerOpenSourceAdapters` before
the workflow is compiled and executed (src/unnamed/part_003, part_004,
src/api/execute.ts).

The adapters are `async` TypeScript functions whose only effect is a single
`fetch` of a JSON body followed by pure post-processing of the parsed JSON
response inside a `try`/`catch`.  They are embedded here as pure functions
from the call options and the outcome of the `fetch`+`response.json()` pair
(an `Except String HttpResponse`: `Except.error` models a rejected promise)
to `Except String LLMRawResponse` (`Except.error` models the adapter
throwing).  JavaScript values read out of the parsed response are modelled by
the JSON value type `Jsval`; JavaScript truthiness-based defaulting (`x || d`)
is modelled by the `jsOr*` helpers, including the falsiness of `0`, `""`,
`null` and `undefined` (`Option.none`).  JavaScript numbers are modelled as
rationals.
-/

namespace ResearchToApp

/-- A parsed JSON value, the model of what `response.json()` resolves to. -/
inductive Jsval where
  | jnull : Jsval
  | jbool : Bool → Jsval
  | jnum : ℚ → Jsval
  | jstr : String → Jsval
  | jarr : List Jsval → Jsval
  | jobj : List (String × Jsval) → Jsval

/-- JavaScript property access `v.k` (also the semantics of `v?.k` applied to
a non-nullish `v`): a lookup in an object, `undefined` (= `none`) on
everything else. -/
def jget (v : Jsval) (k : String) : Option Jsval :=
  match v with
  | Jsval.jobj fields => (fields.find? (fun p => p.1 == k)).map (fun p => p.2)
  | _ => none

/-- JavaScript index access `v[i]` for a numeric literal `i`: element of an
array, string-keyed lookup on an object, `undefined` otherwise. -/
def jindex (v : Jsval) (i : Nat) : Option Jsval :=
  match v with
  | Jsval.jarr l => l.get? i
  | Jsval.jobj fields => (fields.find? (fun p => p.1 == toString i)).map (fun p => p.2)
  | _ => none

/-- JavaScript truthiness of a possibly-`undefined` JSON value. -/
def truthy : Option Jsval → Bool
  | none => false
  | some Jsval.jnull => false
  | some (Jsval.jbool b) => b
  | some (Jsval.jnum q) => decide (q ≠ 0)
  | some (Jsval.jstr s) => decide (s ≠ "")
  | some (Jsval.jarr _) => true
  | some (Jsval.jobj _) => true

/-- Read a JSON value as a string; non-strings and `undefined` give `none`
(the model keeps string-typed fields string-or-absent). -/
def asStr : Option Jsval → Option String
  | some (Jsval.jstr s) => some s
  | _ => none

/-- JavaScript `a || b` where `a` is a string-or-`undefined` expression:
`undefined` and the empty string are falsy. -/
def jsOrStr (a b : Option String) : Option String :=
  match a with
  | some s => if s = "" then b else some s
  | none => b

/-- JavaScript `a || d` where `a` is a numeric field read off a JSON value:
an absent or non-numeric field and the number `0` fall back to `d`. -/
def jsOrNum (a : Option Jsval) (d : ℚ) : ℚ :=
  match a with
  | some (Jsval.jnum q) => if q = 0 then d else q
  | _ => d

/-- JavaScript `a || d` for an optional number already in hand
(e.g. `options.temperature || 0.7`). -/
def jsOrQ (a : Option ℚ) (d : ℚ) : ℚ :=
  match a with
  | some q => if q = 0 then d else q
  | none => d

/-- JavaScript `a || d` for an optional string already in hand
(e.g. `options.baseUrl || 'http://localhost:11434'`). -/
def jsOrS (a : Option String) (d : String) : String :=
  match a with
  | some s => if s = "" then d else s
  | none => d

/-- One entry of `options.messages`; `content` is `none` when the message
object lacks a `content` property. -/
structure ChatMessage where
  content : Option String
deriving DecidableEq

/-- The `responseFormat` hint of the adapter call shape. -/
structure ResponseFormat where
  type : String
deriving DecidableEq

/-- `LLMCallOptions` (bilko-flow adapter call shape, as consumed by
src/unnamed/part_001): `{ model, messages, baseUrl?, apiKey?, temperature?,
maxTokens?, responseFormat? }`. -/
structure LLMCallOptions where
  model : String
  messages : List ChatMessage
  baseUrl : Option String
  apiKey : Option String
  temperature : Option ℚ
  maxTokens : Option ℚ
  responseFormat : Option ResponseFormat
deriving DecidableEq

/-- `options.messages[0]?.content || ''` (part_001 lines 15, 57, 103). -/
def firstContent (o : LLMCallOptions) : String :=
  match o.messages.head? with
  | some m =>
    match m.content with
    | some c => c
    | none => ""
  | none => ""

/-- `options.responseFormat?.type === 'json_object'` (part_001 lines 21, 61,
108). -/
def isJsonObject (o : LLMCallOptions) : Bool :=
  match o.responseFormat with
  | some rf => rf.type == "json_object"
  | none => false

/-- `` `Bearer ${options.apiKey}` `` — JavaScript template-literal
interpolation renders an absent `apiKey` as the string `undefined`. -/
def bearerHeader (o : LLMCallOptions) : String :=
  "Bearer " ++ (match o.apiKey with | some k => k | none => "undefined")

/-- The outcome of `fetch` + `response.json()`: HTTP status flag, numeric
status, status text, and the parsed JSON body. -/
structure HttpResponse where
  ok : Bool
  status : Nat
  statusText : String
  data : Jsval

/-- The adapter result `LLMRawResponse`.  The `usage` object literal the
adapters build is embedded as an association list so that the *names* of its
keys are part of the model; `content` is `none` when the adapter returns
`content: undefined`. -/
structure LLMRawResponse where
  content : Option String
  usage : List (String × ℚ)
deriving DecidableEq

/-- Look a key up in a returned `usage` object. -/
def usageVal (u : List (String × ℚ)) (k : String) : Option ℚ :=
  (u.find? (fun p => p.1 == k)).map (fun p => p.2)

/-- The key of a `usage` entry. -/
def usageKey (p : String × ℚ) : String := p.1

/-- `true` exactly when the adapter threw. -/
def isAdapterFailure : Except String LLMRawResponse → Bool
  | Except.error _ => true
  | Except.ok _ => false

/-- The `content` of a successful adapter result (`none` on failure). -/
def contentOf : Except String LLMRawResponse → Option (Option String)
  | Except.ok r => some r.content
  | Except.error _ => none

/-- The second stage of each adapter's `try`/`catch`: every error escaping
the `try` block is rethrown as `` `<name> adapter failed: ${message}` ``. -/
def wrapFailure (tag : String) (r : Except String LLMRawResponse) :
    Except String LLMRawResponse :=
  match r with
  | Except.ok v => Except.ok v
  | Except.error e => Except.error (tag ++ e)

/-! ## Backend A: the Ollama adapter (part_001 lines 4–42) -/

/-- The nested `options` object of the Ollama request body. -/
structure OllamaOptionsBody where
  temperature : ℚ
  num_predict : ℚ
deriving DecidableEq

/-- The request the Ollama adapter sends to `POST {baseUrl}/api/generate`;
`format` is `none` when the body's `format` key is `undefined` (and hence
absent from the serialized JSON). -/
structure OllamaRequest where
  url : String
  headers : List (String × String)
  model : String
  prompt : String
  options : OllamaOptionsBody
  stream : Bool
  format : Option String
deriving DecidableEq

/-- The request built by `ollamaAdapter` (part_001 lines 5–23). -/
def buildOllamaRequest (o : LLMCallOptions) : OllamaRequest :=
  { url := jsOrS o.baseUrl "http://localhost:11434" ++ "/api/generate"
  , headers := [("Content-Type", "application/json")]
  , model := o.model
  , prompt := firstContent o
  , options :=
      { temperature := jsOrQ o.temperature (7/10)
      , num_predict := jsOrQ o.maxTokens 2048 }
  , stream := false
  , format := if isJsonObject o then some "json" else none }

/-- The response post-processing of `ollamaAdapter` (part_001 lines 25–41):
non-2xx throws, otherwise the result is built from `data.response`,
`data.prompt_eval_count` and `data.eval_count`; every escaping error is
wrapped by the `catch`. -/
def ollamaAdapter (o : LLMCallOptions)
    (fetched : Except String HttpResponse) : Except String LLMRawResponse :=
  wrapFailure "Ollama adapter failed: " <|
    match fetched with
    | Except.error e => Except.error e
    | Except.ok resp =>
      if resp.ok = false then
        Except.error
          ("Ollama API error: " ++ toString resp.status ++ " " ++ resp.statusText)
      else
        Except.ok
          { content := asStr (jget resp.data "response")
          , usage :=
              [ ("prompt_tokens", jsOrNum (jget resp.data "prompt_eval_count") 0)
              , ("completion_tokens", jsOrNum (jget resp.data "eval_count") 0)
              , ("total_tokens",
                  jsOrNum (jget resp.data "prompt_eval_count") 0
                    + jsOrNum (jget resp.data "eval_count") 0) ] }

/-! ## Backend B: the vLLM adapter (part_001 lines 45–89) -/

/-- The request the vLLM adapter sends to `POST {baseUrl}/v1/completions`;
`guided_json` is `some (Jsval.jobj [])` exactly when the spread
`...(options.responseFormat?.type === 'json_object' && { guided_json: {} })`
adds the key, and `none` when the key is absent. -/
structure VllmRequest where
  url : String
  headers : List (String × String)
  model : String
  prompt : String
  max_tokens : ℚ
  temperature : ℚ
  echo : Bool
  guided_json : Option Jsval

/-- The request built by `vllmAdapter` (part_001 lines 46–65). -/
def buildVllmRequest (o : LLMCallOptions) : VllmRequest :=
  { url := jsOrS o.baseUrl "http://localhost:8000" ++ "/v1/completions"
  , headers :=
      [("Content-Type", "application/json"), ("Authorization", bearerHeader o)]
  , model := o.model
  , prompt := firstContent o
  , max_tokens := jsOrQ o.maxTokens 2048
  , temperature := jsOrQ o.temperature (7/10)
  , echo := false
  , guided_json := if isJsonObject o then some (Jsval.jobj []) else none }

/-- The response post-processing of `vllmAdapter` (part_001 lines 67–88):
non-2xx throws; `const choice = data.choices?.[0]` followed by
`if (!choice) throw new Error('No completion returned from vLLM')`;
otherwise the result is built from `choice.text` and `data.usage`. -/
def vllmAdapter (o : LLMCallOptions)
    (fetched : Except String HttpResponse) : Except String LLMRawResponse :=
  wrapFailure "vLLM adapter failed: " <|
    match fetched with
    | Except.error e => Except.error e
    | Except.ok resp =>
      if resp.ok = false then
        Except.error
          ("vLLM API error: " ++ toString resp.status ++ " " ++ resp.statusText)
      else
        let choice := (jget resp.data "choices").bind (fun c => jindex c 0)
        if truthy choice = false then
          Except.error "No completion returned from vLLM"
        else
          Except.ok
            { content := asStr (choice.bind (fun ch => jget ch "text"))
            , usage :=
                [ ("prompt_tokens",
                    jsOrNum ((jget resp.data "usage").bind
                      (fun u => jget u "prompt_tokens")) 0)
                , ("completion_tokens",
                    jsOrNum ((jget resp.data "usage").bind
                      (fun u => jget u "completion_tokens")) 0)
                , ("total_tokens",
                    jsOrNum ((jget resp.data "usage").bind
                      (fun u => jget u "total_tokens")) 0) ] }

/-! ## Backend C: the TGI adapter (part_001 lines 92–133) -/

/-- The nested `parameters` object of the TGI request body;
`response_format` is `some "json_object"` exactly when the conditional spread
adds `response_format: { type: 'json_object' }`. -/
structure TgiParameters where
  max_new_tokens : ℚ
  temperature : ℚ
  return_full_text : Bool
  response_format : Option String
deriving DecidableEq

/-- The request the TGI adapter sends to `POST {baseUrl}/generate`. -/
structure TgiRequest where
  url : String
  headers : List (String × String)
  inputs : String
  parameters : TgiParameters
deriving DecidableEq

/-- The request built by `tgiAdapter` (part_001 lines 93–113). -/
def buildTgiRequest (o : LLMCallOptions) : TgiRequest :=
  { url := jsOrS o.baseUrl "http://localhost:8080" ++ "/generate"
  , headers :=
      [("Content-Type", "application/json"), ("Authorization", bearerHeader o)]
  , inputs := firstContent o
  , parameters :=
      { max_new_tokens := jsOrQ o.maxTokens 2048
      , temperature := jsOrQ o.temperature (7/10)
      , return_full_text := false
      , response_format := if isJsonObject o then some "json_object" else none } }

/-- The response post-processing of `tgiAdapter` (part_001 lines 115–132):
non-2xx throws; `const generatedText = data.generated_text ||
data[0]?.generated_text` accepts the single-object shape and the one-element
array shape, and is `undefined` when neither matches — the adapter then still
returns successfully with `content: undefined`. -/
def tgiAdapter (o : LLMCallOptions)
    (fetched : Except String HttpResponse) : Except String LLMRawResponse :=
  wrapFailure "TGI adapter failed: " <|
    match fetched with
    | Except.error e => Except.error e
    | Except.ok resp =>
      if resp.ok = false then
        Except.error
          ("TGI API error: " ++ toString resp.status ++ " " ++ resp.statusText)
      else
        Except.ok
          { content :=
              jsOrStr (asStr (jget resp.data "generated_text"))
                ((jindex resp.data 0).bind
                  (fun v => asStr (jget v "generated_text")))
          , usage :=
              [ ("prompt_tokens",
                  jsOrNum ((jget resp.data "details").bind
                    (fun d => jget d "prompt_tokens")) 0)
              , ("completion_tokens",
                  jsOrNum ((jget resp.data "details").bind
                    (fun d => jget d "generated_tokens")) 0)
              , ("total_tokens",
                  jsOrNum ((jget resp.data "details").bind
                    (fun d => jget d "prompt_tokens")) 0
                    + jsOrNum ((jget resp.data "details").bind
                      (fun d => jget d "generated_tokens")) 0) ] }

/-! ## The workflow definition `researchToAppFlow` (src/unnamed/part_002)

The eight step prompts are embedded verbatim (braces written as `\x7b`/`\x7d`
escapes).  The `notifications` block of the definition (webhook URLs and
payloads) plays no role in any claim and is not embedded. -/

def analyzeResearchTopicPrompt : String :=
  "Analyze this research topic and break it down into actionable development tasks:\n        \n        Research Topic: \"\x7b\x7bresearchTopic\x7d\x7d\"\n        \n        Provide:\n        1. Technical complexity assessment (1-10)\n        2. Key technical challenges\n        3. Recommended technology stack (open-source only)\n        4. Development phases with estimated effort\n        5. Risk assessment and mitigation strategies\n        \n        Format as JSON with keys: complexity, challenges, techStack, phases, risks"

def designArchitecturePrompt : String :=
  "Design the application architecture based on the research analysis:\n        \n        Analysis: \"\x7b\x7banalyze-research-topic.output\x7d\x7d\"\n        \n        Create a detailed architecture plan:\n        1. System components and their relationships\n        2. Data flow diagram (text description)\n        3. API structure and endpoints\n        4. Database schema design\n        5. Security considerations\n        \n        Format as JSON with keys: components, dataFlow, api, database, security"

def generateProjectStructurePrompt : String :=
  "Generate the complete project structure and boilerplate code:\n        \n        Architecture: \"\x7b\x7bdesign-architecture.output\x7d\x7d\"\n        \n        Create:\n        1. Directory structure (tree format)\n        2. Package.json with open-source dependencies only\n        3. Configuration files (typescript, eslint, etc.)\n        4. Docker setup for development\n        5. CI/CD pipeline using GitHub Actions\n        \n        Provide as executable code blocks and configuration files."

def createCoreComponentsPrompt : String :=
  "Implement the core application components:\n        \n        Architecture: \"\x7b\x7bdesign-architecture.output\x7d\x7d\"\n        Project Structure: \"\x7b\x7bgenerate-project-structure.output\x7d\x7d\"\n        \n        Generate TypeScript code for:\n        1. Main application entry point\n        2. Core service classes\n        3. Data models and interfaces\n        4. API route handlers\n        5. Database connection and utilities\n        \n        Follow the architecture and use only open-source libraries."

def setupTestingPrompt : String :=
  "Create comprehensive testing setup:\n        \n        Architecture: \"\x7b\x7bdesign-architecture.output\x7d\x7d\"\n        Components: \"\x7b\x7bcreate-core-components.output\x7d\x7d\"\n        \n        Generate:\n        1. Unit tests for core functions\n        2. Integration tests for API endpoints\n        3. E2E test scenarios\n        4. Test utilities and mocks\n        5. Performance test setup\n        \n        Use Vitest and Testing Library (open-source)."

def createDocumentationPrompt : String :=
  "Generate comprehensive documentation:\n        \n        Architecture: \"\x7b\x7bdesign-architecture.output\x7d\x7d\"\n        Implementation: \"\x7b\x7bcreate-core-components.output\x7d\x7d\"\n        \n        Create:\n        1. README.md with setup instructions\n        2. API documentation (OpenAPI specification)\n        3. Developer onboarding guide\n        4. Deployment documentation\n        5. Contributing guidelines"

def setupDeploymentPrompt : String :=
  "Create deployment configuration:\n        \n        Project: \"\x7b\x7bgenerate-project-structure.output\x7d\x7d\"\n        Documentation: \"\x7b\x7bcreate-documentation.output\x7d\x7d\"\n        \n        Generate:\n        1. Docker Compose for local development\n        2. Kubernetes deployment manifests\n        3. Nginx configuration\n        4. Environment variable templates\n        5. Health check endpoints\n        \n        Focus on self-hosted, open-source solutions."

def qualityAssurancePrompt : String :=
  "Perform quality assurance review of the generated application:\n        \n        Architecture: \"\x7b\x7bdesign-architecture.output\x7d\x7d\"\n        Code: \"\x7b\x7bcreate-core-components.output\x7d\x7d\"\n        Tests: \"\x7b\x7bsetup-testing.output\x7d\x7d\"\n        Documentation: \"\x7b\x7bcreate-documentation.output\x7d\x7d\"\n        Deployment: \"\x7b\x7bsetup-deployment.output\x7d\x7d\"\n        \n        Analyze and report on:\n        1. Code quality and best practices\n        2. Security vulnerabilities\n        3. Performance bottlenecks\n        4. Documentation completeness\n        5. Deployment readiness\n        \n        Provide specific recommendations and improvements needed."


/-- A step's `config` object (part_002): provider id, model id, prompt
template, optional response-format hint and sampling parameters. -/
structure StepConfig where
  provider : String
  model : String
  prompt : String
  responseFormat : Option ResponseFormat
  maxTokens : Option ℚ
  temperature : Option ℚ

/-- One workflow step: id, type tag (`stepType` embeds the `type` field),
configuration and declared dependency ids. -/
structure WorkflowStep where
  id : String
  stepType : String
  config : StepConfig
  dependencies : List String

/-- One entry of the `secrets` array. -/
structure SecretDecl where
  name : String
  description : String

/-- The `retryPolicy` object of the workflow `policies`. -/
structure RetryPolicy where
  maxRetries : Nat
  backoffStrategy : String

/-- The `policies` object of the workflow definition. -/
structure WorkflowPolicies where
  timeout : Nat
  retryPolicy : RetryPolicy

/-- The `WorkflowDefinition` shape used by `researchToAppFlow`. -/
structure Workflow where
  name : String
  description : String
  version : String
  determinismGrade : String
  steps : List WorkflowStep
  secrets : List SecretDecl
  policies : WorkflowPolicies

/-- `researchToAppFlow` (part_002 lines 3–246). -/
def researchToAppFlow : Workflow :=
  { name := "research-to-app-trial"
  , description := "Transform research concept into functional application prototype"
  , version := "1.0.0"
  , determinismGrade := "pure"
  , steps :=
      [ { id := "analyze-research-topic"
        , stepType := "ai.generate-text"
        , config :=
            { provider := "ollama", model := "llama3:8b"
            , prompt := analyzeResearchTopicPrompt
            , responseFormat := some { type := "json_object" }
            , maxTokens := some 2000, temperature := some (3/10) }
        , dependencies := [] }
      , { id := "design-architecture"
        , stepType := "ai.generate-text"
        , config :=
            { provider := "ollama", model := "llama3:8b"
            , prompt := designArchitecturePrompt
            , responseFormat := some { type := "json_object" }
            , maxTokens := some 3000, temperature := some (1/5) }
        , dependencies := ["analyze-research-topic"] }
      , { id := "generate-project-structure"
        , stepType := "ai.generate-text"
        , config :=
            { provider := "ollama", model := "codellama"
            , prompt := generateProjectStructurePrompt
            , responseFormat := none
            , maxTokens := some 4000, temperature := some (1/10) }
        , dependencies := ["design-architecture"] }
      , { id := "create-core-components"
        , stepType := "ai.generate-text"
        , config :=
            { provider := "ollama", model := "codellama"
            , prompt := createCoreComponentsPrompt
            , responseFormat := none
            , maxTokens := some 5000, temperature := some (1/10) }
        , dependencies := ["design-architecture", "generate-project-structure"] }
      , { id := "setup-testing"
        , stepType := "ai.generate-text"
        , config :=
            { provider := "ollama", model := "codellama"
            , prompt := setupTestingPrompt
            , responseFormat := none
            , maxTokens := some 4000, temperature := some (1/10) }
        , dependencies := ["create-core-components"] }
      , { id := "create-documentation"
        , stepType := "ai.generate-text"
        , config :=
            { provider := "ollama", model := "llama3:8b"
            , prompt := createDocumentationPrompt
            , responseFormat := none
            , maxTokens := some 3000, temperature := some (1/5) }
        , dependencies := ["create-core-components"] }
      , { id := "setup-deployment"
        , stepType := "ai.generate-text"
        , config :=
            { provider := "ollama", model := "codellama"
            , prompt := setupDeploymentPrompt
            , responseFormat := none
            , maxTokens := some 3000, temperature := some (1/10) }
        , dependencies := ["generate-project-structure", "create-documentation"] }
      , { id := "quality-assurance"
        , stepType := "ai.generate-text"
        , config :=
            { provider := "vllm", model := "mistralai/Mistral-7B-Instruct-v0.1"
            , prompt := qualityAssurancePrompt
            , responseFormat := none
            , maxTokens := some 2500, temperature := some (3/10) }
        , dependencies :=
            [ "create-core-components", "setup-testing"
            , "create-documentation", "setup-deployment" ] } ]
  , secrets :=
      [ { name := "DATABASE_URL", description := "Database connection string" }
      , { name := "JWT_SECRET", description := "JWT signing secret" } ]
  , policies :=
      { timeout := 3600
      , retryPolicy := { maxRetries := 2, backoffStrategy := "exponential" } } }

/-! ## Template placeholders and the dependency graph -/

/-- Split a character stream at the first closing `\x7d\x7d`, returning the
characters before it and the remainder; `none` when the placeholder is never
closed. -/
def splitClose : List Char → Option (List Char × List Char)
  | [] => none
  | '\x7d' :: '\x7d' :: rest => some ([], rest)
  | c :: rest =>
    match splitClose rest with
    | some (name, r) => some (c :: name, r)
    | none => none

/-- Fuel-indexed scan collecting the names of all `\x7b\x7bname\x7d\x7d`
placeholders of a character stream, left to right. -/
def scanPH : Nat → List Char → List String
  | 0, _ => []
  | _ + 1, [] => []
  | fuel + 1, '\x7b' :: '\x7b' :: rest =>
    (match splitClose rest with
     | some (name, r) => String.mk name :: scanPH fuel r
     | none => [])
  | fuel + 1, _ :: rest => scanPH fuel rest

/-- All placeholder names occurring in a template string. -/
def placeholders (s : String) : List String :=
  scanPH s.data.length s.data

/-- The step id of a `stepId.output` placeholder name; `none` for a
top-level-variable placeholder such as `researchTopic`. -/
def refOfName (n : String) : Option String :=
  let cs := n.data
  let tail := ".output".data
  if tail.length ≤ cs.length ∧ cs.drop (cs.length - tail.length) = tail then
    some (String.mk (cs.take (cs.length - tail.length)))
  else none

/-- The step ids whose output a template string references via
`\x7b\x7bstepId.output\x7d\x7d` placeholders. -/
def outputRefs (s : String) : List String :=
  (placeholders s).filterMap refOfName

/-- Does every output placeholder of the step's prompt name a declared
dependency of that step? -/
def stepRefsDeclared (st : WorkflowStep) : Bool :=
  (outputRefs st.config.prompt).all (fun r => st.dependencies.contains r)

/-- `stepRefsDeclared` for every step of a workflow. -/
def allRefsDeclared (w : Workflow) : Bool :=
  w.steps.all stepRefsDeclared

/-- The ids of a workflow's steps, in declaration order. -/
def stepIds (w : Workflow) : List String :=
  w.steps.map (fun st => st.id)

/-- The dependency edges of a workflow: `(s, d)` when step `s` declares a
dependency on step id `d`. -/
def depEdges (w : Workflow) : List (String × String) :=
  w.steps.flatMap (fun st => st.dependencies.map (fun d => (st.id, d)))

/-- The position of a step id in the declaration order (used as the rank
function witnessing acyclicity). -/
def idIndex (w : Workflow) (i : String) : Nat :=
  (stepIds w).indexOf i

/-- A finite edge list is acyclic exactly when some rank function strictly
decreases along every edge (equivalently: a topological order exists). -/
def EdgeAcyclic (es : List (String × String)) : Prop :=
  ∃ rank : String → Nat, ∀ e ∈ es, rank e.2 < rank e.1

/-- The step of a workflow carrying a given id. -/
def findStep (w : Workflow) (i : String) : Option WorkflowStep :=
  w.steps.find? (fun st => st.id == i)

/-! ## Entry-point traces (src/unnamed/part_003, src/unnamed/part_004,
src/api/execute.ts)

Each entry point is embedded as the sequence of engine-facing calls it makes,
in program order: adapter registrations, `compileWorkflow` and
`executeWorkflow`. -/

/-- One engine-facing call of an entry point. -/
inductive EngineEvent where
  | registerAdapter (provider : String) : EngineEvent
  | compileWorkflow : EngineEvent
  | executeWorkflow : EngineEvent
deriving DecidableEq

/-- The registrations performed by `registerOpenSourceAdapters`
(part_001 lines 136–140), in order. -/
def registerOpenSourceAdaptersEvents : List EngineEvent :=
  [ EngineEvent.registerAdapter "ollama"
  , EngineEvent.registerAdapter "vllm"
  , EngineEvent.registerAdapter "tgi" ]

/-- The CLI entry point `main` (part_003 lines 5–44): register all adapters,
compile the workflow, then execute it. -/
def cliMainTrace : List EngineEvent :=
  registerOpenSourceAdaptersEvents
    ++ [EngineEvent.compileWorkflow, EngineEvent.executeWorkflow]

/-- The Express server (part_004): registration and compilation run at module
load (lines 17–18); `executeWorkflow` runs inside the
`POST /api/workflows/execute` handler (line 81), necessarily after module
load. -/
def expressServerTrace : List EngineEvent :=
  registerOpenSourceAdaptersEvents
    ++ [EngineEvent.compileWorkflow, EngineEvent.executeWorkflow]

/-- The Vercel function (src/api/execute.ts): registration and compilation
run at module load (lines 7–8); `executeWorkflow` runs inside `handler`
(line 33). -/
def vercelHandlerTrace : List EngineEvent :=
  registerOpenSourceAdaptersEvents
    ++ [EngineEvent.compileWorkflow, EngineEvent.executeWorkflow]

/-- Is the event an adapter registration? -/
def isRegisterEvent : EngineEvent → Bool
  | EngineEvent.registerAdapter _ => true
  | _ => false

/-- The providers registered along a trace. -/
def registeredProviders (t : List EngineEvent) : List String :=
  t.filterMap (fun e =>
    match e with
    | EngineEvent.registerAdapter p => some p
    | _ => none)

/-- No event of the trace is a registration. -/
def noRegistration (t : List EngineEvent) : Bool :=
  t.all (fun e => !isRegisterEvent e)

/-- Every registration of the trace precedes the first `compileWorkflow` or
`executeWorkflow` event. -/
def registrationPrecedesUse : List EngineEvent → Bool
  | [] => true
  | EngineEvent.registerAdapter _ :: rest => registrationPrecedesUse rest
  | _ :: rest => noRegistration rest

/-- Does every declared dependency id of every step name a step of the
workflow? -/
def depsExist (w : Workflow) : Bool :=
  w.steps.all (fun st => st.dependencies.all (fun d => (stepIds w).contains d))

/-- Is every provider referenced by a step of the workflow registered along
the trace? -/
def providersRegistered (w : Workflow) (t : List EngineEvent) : Bool :=
  w.steps.all (fun st => (registeredProviders t).contains st.config.provider)

/-- The `usage` object of a successful adapter result (`[]` on failure). -/
def usageOf : Except String LLMRawResponse → List (String × ℚ)
  | Except.ok r => r.usage
  | Except.error _ => []

/-- Every failure result carries the given tag at the start of its message
(successes pass trivially). -/
def errorTagged (tag : String) : Except String LLMRawResponse → Bool
  | Except.error e => tag.data.isPrefixOf e.data
  | Except.ok _ => true

/-- Equality of adapter outcomes is decidable. -/
instance exceptDecEq {α β : Type} [DecidableEq α] [DecidableEq β] :
    DecidableEq (Except α β) := fun x y =>
  match x, y with
  | Except.error a, Except.error b =>
    if h : a = b then isTrue (by rw [h])
    else isFalse (fun hc => h (Except.error.inj hc))
  | Except.error _, Except.ok _ => isFalse (fun hc => Except.noConfusion hc)
  | Except.ok _, Except.error _ => isFalse (fun hc => Except.noConfusion hc)
  | Except.ok a, Except.ok b =>
    if h : a = b then isTrue (by rw [h])
    else isFalse (fun hc => h (Except.ok.inj hc))

/-! ## Concrete inputs used to instantiate the adapter theorems -/

/-- A call-options value with one message, a bearer credential and a
`json_object` response format. -/
def exOpts : LLMCallOptions :=
  { model := "llama3:8b"
  , messages := [{ content := some "hi" }]
  , baseUrl := none
  , apiKey := some "sk-test"
  , temperature := some (3/10)
  , maxTokens := some 2000
  , responseFormat := some { type := "json_object" } }

/-- A call-options value with an empty `messages` array and no optional
fields. -/
def exOptsNoMessages : LLMCallOptions :=
  { model := "llama3:8b"
  , messages := []
  , baseUrl := none
  , apiKey := none
  , temperature := none
  , maxTokens := none
  , responseFormat := none }

/-- A non-2xx HTTP response. -/
def exRespServerError : HttpResponse :=
  { ok := false, status := 500, statusText := "Internal Server Error"
  , data := Jsval.jnull }

/-- A 2xx Ollama response carrying `response`, `prompt_eval_count` and
`eval_count`. -/
def exRespOllama : HttpResponse :=
  { ok := true, status := 200, statusText := "OK"
  , data := Jsval.jobj
      [ ("response", Jsval.jstr "hello")
      , ("prompt_eval_count", Jsval.jnum 3)
      , ("eval_count", Jsval.jnum 5) ] }

/-- A 2xx Ollama response with no token-count fields at all. -/
def exRespOllamaBare : HttpResponse :=
  { ok := true, status := 200, statusText := "OK"
  , data := Jsval.jobj [("response", Jsval.jstr "hello")] }

/-- A 2xx response whose `choices` array is empty. -/
def exRespEmptyChoices : HttpResponse :=
  { ok := true, status := 200, statusText := "OK"
  , data := Jsval.jobj [("choices", Jsval.jarr [])] }

/-- A 2xx vLLM response with one choice and a `usage` object. -/
def exRespVllm : HttpResponse :=
  { ok := true, status := 200, statusText := "OK"
  , data := Jsval.jobj
      [ ("choices", Jsval.jarr [Jsval.jobj [("text", Jsval.jstr "vllm-out")]])
      , ("usage", Jsval.jobj
          [ ("prompt_tokens", Jsval.jnum 4)
          , ("completion_tokens", Jsval.jnum 6)
          , ("total_tokens", Jsval.jnum 10) ]) ] }

/-- A 2xx single-object TGI response. -/
def exRespTgiObject : HttpResponse :=
  { ok := true, status := 200, statusText := "OK"
  , data := Jsval.jobj [("generated_text", Jsval.jstr "generated")] }

/-- A 2xx one-element-array TGI response. -/
def exRespTgiArray : HttpResponse :=
  { ok := true, status := 200, statusText := "OK"
  , data := Jsval.jarr [Jsval.jobj [("generated_text", Jsval.jstr "generated")]] }

/-- A 2xx TGI response matching neither accepted shape. -/
def exRespTgiNeither : HttpResponse :=
  { ok := true, status := 200, statusText := "OK"
  , data := Jsval.jobj [("error", Jsval.jstr "overloaded")] }

/-- A 2xx TGI response carrying a `details` object with token counts. -/
def exRespTgiDetails : HttpResponse :=
  { ok := true, status := 200, statusText := "OK"
  , data := Jsval.jobj
      [ ("generated_text", Jsval.jstr "generated")
      , ("details", Jsval.jobj
          [ ("prompt_tokens", Jsval.jnum 2)
          , ("generated_tokens", Jsval.jnum 9) ]) ] }

/-! ## Helper lemmas -/

/-- `firstContent` is the first message's content, defaulting to the empty
string when the messages array is empty or its first message lacks content. -/
theorem firstContent_eq (o : LLMCallOptions) :
    firstContent o = (o.messages.head?.bind (fun m => m.content)).getD "" := by
  obtain ⟨mo, msgs, bu, ak, te, mt, rf⟩ := o
  rcases msgs with _ | ⟨m, rest⟩
  · rfl
  · rcases m with ⟨c⟩
    rcases c with _ | c <;> rfl

/-- `isJsonObject` holds exactly when the declared response format type is
`json_object`. -/
theorem isJsonObject_iff (o : LLMCallOptions) :
    isJsonObject o = true
      ↔ o.responseFormat.map (fun rf => rf.type) = some "json_object" := by
  obtain ⟨mo, msgs, bu, ak, te, mt, rf⟩ := o
  rcases rf with _ | ⟨ty⟩ <;> simp [isJsonObject]

/-- `wrapFailure` always yields a result tagged with its own tag. -/
theorem errorTagged_wrapFailure (tag : String) (r : Except String LLMRawResponse) :
    errorTagged tag (wrapFailure tag r) = true := by
  cases r with
  | ok v => rfl
  | error e =>
    simp [wrapFailure, errorTagged, List.isPrefixOf_iff_prefix]

/-! ## C1 -/

set_option maxRecDepth 100000 in
/-- C1: the claim that every `\x7b\x7bstepId.output\x7d\x7d` placeholder of a step's
prompt names an id in that step's declared dependencies is violated by the
workflow definition: the step `setup-testing` interpolates
`design-architecture.output` while declaring only `create-core-components`
as a dependency (the steps `create-documentation` and `quality-assurance`
likewise omit `design-architecture`). -/
theorem c1_step_references_undeclared_dependency :
    allRefsDeclared researchToAppFlow = false
    ∧ (findStep researchToAppFlow "setup-testing").map
        (fun st => outputRefs st.config.prompt)
      = some ["design-architecture", "create-core-components"]
    ∧ (findStep researchToAppFlow "setup-testing").map
        (fun st => st.dependencies)
      = some ["create-core-components"]
    ∧ (researchToAppFlow.steps.filter (fun st => !stepRefsDeclared st)).map
        (fun st => st.id)
      = ["setup-testing", "create-documentation", "quality-assurance"] := by
  refine ⟨by decide, by decide, by decide, by decide⟩

/-! ## C5 -/

set_option maxRecDepth 100000 in
/-- C5: the dependency graph of `researchToAppFlow` is acyclic (the
declaration order is a topological order, witnessing a rank function that
strictly decreases along every dependency edge), every declared dependency id
names a step of the workflow, and the step ids are pairwise distinct. -/
theorem c5_dependency_graph_wellformed :
    EdgeAcyclic (depEdges researchToAppFlow)
    ∧ depsExist researchToAppFlow = true
    ∧ (stepIds researchToAppFlow).Nodup :=
  ⟨⟨idIndex researchToAppFlow, by decide⟩, by decide, by decide⟩

/-! ## C7 -/

set_option maxRecDepth 100000 in
/-- C7: `registerOpenSourceAdapters` registers exactly the providers
`ollama`, `vllm` and `tgi`; in each of the three entry points (CLI `main`,
the Express server, the Vercel handler) every registration precedes the first
`compileWorkflow`/`executeWorkflow` call; and every provider referenced by a
step of `researchToAppFlow` is among the registered providers. -/
theorem c7_registration_precedes_compile_and_execute :
    registeredProviders registerOpenSourceAdaptersEvents = ["ollama", "vllm", "tgi"]
    ∧ registrationPrecedesUse cliMainTrace = true
    ∧ registrationPrecedesUse expressServerTrace = true
    ∧ registrationPrecedesUse vercelHandlerTrace = true
    ∧ providersRegistered researchToAppFlow cliMainTrace = true
    ∧ providersRegistered researchToAppFlow expressServerTrace = true
    ∧ providersRegistered researchToAppFlow vercelHandlerTrace = true := by
  refine ⟨rfl, rfl, rfl, rfl, by decide, by decide, by decide⟩

/-! ## C6 -/

/-- C6: the Ollama adapter builds a generate-style request whose prompt is
the single first message's content (empty when absent), whose sampling
parameters `temperature` and `num_predict` are nested under the `options`
key with the source defaults, which carries `format := "json"` exactly when
`responseFormat.type` is `json_object` (and omits the key otherwise), and
which throws on every non-2xx HTTP response. -/
theorem c6_ollama_generate_request (o : LLMCallOptions) (resp : HttpResponse) :
    (buildOllamaRequest o).prompt = (o.messages.head?.bind (fun m => m.content)).getD ""
    ∧ (buildOllamaRequest o).options.temperature = jsOrQ o.temperature (7/10)
    ∧ (buildOllamaRequest o).options.num_predict = jsOrQ o.maxTokens 2048
    ∧ ((buildOllamaRequest o).format = some "json"
        ↔ o.responseFormat.map (fun rf => rf.type) = some "json_object")
    ∧ (o.responseFormat.map (fun rf => rf.type) ≠ some "json_object"
        → (buildOllamaRequest o).format = none)
    ∧ (resp.ok = false →
        isAdapterFailure (ollamaAdapter o (Except.ok resp)) = true) := by
  refine ⟨firstContent_eq o, rfl, rfl, ?_, ?_, ?_⟩
  · rw [← isJsonObject_iff o]
    show (if isJsonObject o then some "json" else none) = some "json" ↔ _
    cases h : isJsonObject o <;> simp [h]
  · intro hne
    show (if isJsonObject o then some "json" else none) = none
    cases h : isJsonObject o
    · simp
    · exact absurd ((isJsonObject_iff o).mp h) hne
  · intro hbad
    simp [ollamaAdapter, wrapFailure, isAdapterFailure, hbad]

/-- C6 witness: instantiation at a concrete call and a concrete non-2xx
response. -/
theorem c6_ollama_generate_request_witness :
    (buildOllamaRequest exOpts).prompt = "hi"
    ∧ (buildOllamaRequest exOpts).format = some "json"
    ∧ isAdapterFailure (ollamaAdapter exOpts (Except.ok exRespServerError)) = true := by
  have h := c6_ollama_generate_request exOpts exRespServerError
  exact ⟨h.1, (h.2.2.2.1).mpr rfl, h.2.2.2.2.2 rfl⟩

/-! ## C4 -/

/-- C4: the vLLM adapter sends an OpenAI-compatible completions request with
a bearer-credential `Authorization` header, includes the guided-decoding hint
`guided_json` exactly when `responseFormat.type` is `json_object`, and fails
with the no-completion error whenever the response's `choices` list is empty
or absent. -/
theorem c4_vllm_completions_request (o : LLMCallOptions) (resp : HttpResponse) :
    (∀ k, o.apiKey = some k →
        ("Authorization", "Bearer " ++ k) ∈ (buildVllmRequest o).headers)
    ∧ ((buildVllmRequest o).guided_json.isSome = true
        ↔ o.responseFormat.map (fun rf => rf.type) = some "json_object")
    ∧ (resp.ok = true →
        (jget resp.data "choices" = none
          ∨ jget resp.data "choices" = some (Jsval.jarr [])) →
        vllmAdapter o (Except.ok resp)
          = Except.error "vLLM adapter failed: No completion returned from vLLM") := by
  refine ⟨?_, ?_, ?_⟩
  · intro k hk
    simp [buildVllmRequest, bearerHeader, hk]
  · rw [← isJsonObject_iff o]
    show (if isJsonObject o then some (Jsval.jobj []) else none).isSome = true ↔ _
    cases h : isJsonObject o <;> simp [h]
  · intro hok hchoices
    have hchoice : (jget resp.data "choices").bind (fun c => jindex c 0) = none := by
      rcases hchoices with h | h <;> simp [h, jindex]
    simp [vllmAdapter, wrapFailure, hok, hchoice, truthy]

/-- C4 witness: instantiation at a concrete call with a bearer credential and
a concrete 2xx response with an empty `choices` array. -/
theorem c4_vllm_completions_request_witness :
    ("Authorization", "Bearer sk-test") ∈ (buildVllmRequest exOpts).headers
    ∧ (buildVllmRequest exOpts).guided_json.isSome = true
    ∧ vllmAdapter exOpts (Except.ok exRespEmptyChoices)
        = Except.error "vLLM adapter failed: No completion returned from vLLM" := by
  have h := c4_vllm_completions_request exOpts exRespEmptyChoices
  exact ⟨h.1 "sk-test" rfl, h.2.1.mpr rfl, h.2.2 rfl (Or.inr rfl)⟩

/-! ## C2 -/

/-- C2 counterexample: on a 2xx response matching neither the single-object
shape nor the one-element-array shape, the TGI adapter does not fail with a
normalization error — it returns successfully, with an absent `content` and
zeroed usage counters. -/
theorem c2_tgi_neither_shape_succeeds :
    tgiAdapter exOpts (Except.ok exRespTgiNeither)
      = Except.ok
          { content := none
          , usage :=
              [ ("prompt_tokens", 0), ("completion_tokens", 0)
              , ("total_tokens", 0) ] } := by
  simp [tgiAdapter, wrapFailure, exRespTgiNeither, jget, jindex, asStr,
    jsOrStr, jsOrNum]

/-- C2 (amended): the TGI adapter accepts both a single-object response
carrying a non-empty `generated_text` and a one-element-array response whose
first element carries a non-empty `generated_text`; when the response matches
neither shape the adapter does not fail — it returns successfully with an
absent `content`. -/
theorem c2_tgi_response_shapes (o : LLMCallOptions) (resp : HttpResponse)
    (el : Jsval) (t : String) :
    (resp.ok = true → jget resp.data "generated_text" = some (Jsval.jstr t) →
        t ≠ "" → contentOf (tgiAdapter o (Except.ok resp)) = some (some t))
    ∧ (resp.ok = true → resp.data = Jsval.jarr [el] →
        jget el "generated_text" = some (Jsval.jstr t) → t ≠ "" →
        contentOf (tgiAdapter o (Except.ok resp)) = some (some t))
    ∧ (resp.ok = true → asStr (jget resp.data "generated_text") = none →
        jindex resp.data 0 = none →
        contentOf (tgiAdapter o (Except.ok resp)) = some none) := by
  refine ⟨?_, ?_, ?_⟩
  · intro hok hobj ht
    simp [tgiAdapter, wrapFailure, contentOf, hok, hobj, asStr, jsOrStr, ht]
  · intro hok harr hel ht
    have h1 : jget (Jsval.jarr [el]) "generated_text" = none := rfl
    have h2 : jindex (Jsval.jarr [el]) 0 = some el := rfl
    simp [tgiAdapter, wrapFailure, contentOf, hok, harr, h1, h2, hel,
      asStr, jsOrStr, ht]
  · intro hok hstr hidx
    simp [tgiAdapter, wrapFailure, contentOf, hok, hstr, hidx, jsOrStr]

/-- C2 witness: instantiation at a concrete single-object response, a
concrete one-element-array response, and a concrete response matching
neither shape. -/
theorem c2_tgi_response_shapes_witness :
    contentOf (tgiAdapter exOpts (Except.ok exRespTgiObject)) = some (some "generated")
    ∧ contentOf (tgiAdapter exOpts (Except.ok exRespTgiArray)) = some (some "generated")
    ∧ contentOf (tgiAdapter exOpts (Except.ok exRespTgiNeither)) = some none := by
  refine ⟨?_, ?_, ?_⟩
  · exact (c2_tgi_response_shapes exOpts exRespTgiObject Jsval.jnull "generated").1
      rfl rfl (by decide)
  · exact (c2_tgi_response_shapes exOpts exRespTgiArray
      (Jsval.jobj [("generated_text", Jsval.jstr "generated")]) "generated").2.1
      rfl rfl rfl (by decide)
  · exact (c2_tgi_response_shapes exOpts exRespTgiNeither Jsval.jnull "").2.2
      rfl rfl rfl

/-! ## C3 -/

/-- C3 counterexample: on a concrete successful Ollama call the returned
usage object exposes its counters under snake_case keys and has no
`promptTokens` key, refuting the claimed camelCase key names. -/
theorem c3_usage_keys_are_snake_case :
    isAdapterFailure (ollamaAdapter exOpts (Except.ok exRespOllama)) = false
    ∧ (usageOf (ollamaAdapter exOpts (Except.ok exRespOllama))).map usageKey
        = ["prompt_tokens", "completion_tokens", "total_tokens"]
    ∧ usageVal (usageOf (ollamaAdapter exOpts (Except.ok exRespOllama)))
        "promptTokens" = none := by
  refine ⟨rfl, rfl, rfl⟩

/-- C3 (amended): each of the three adapters, on success, returns a value
carrying a `content` field and a `usage` object whose counters are exposed
under the snake_case keys `prompt_tokens`, `completion_tokens` and
`total_tokens`. -/
theorem c3_success_usage_shape (o : LLMCallOptions)
    (f : Except String HttpResponse) (r : LLMRawResponse) :
    (ollamaAdapter o f = Except.ok r →
        r.usage.map usageKey = ["prompt_tokens", "completion_tokens", "total_tokens"])
    ∧ (vllmAdapter o f = Except.ok r →
        r.usage.map usageKey = ["prompt_tokens", "completion_tokens", "total_tokens"])
    ∧ (tgiAdapter o f = Except.ok r →
        r.usage.map usageKey = ["prompt_tokens", "completion_tokens", "total_tokens"]) := by
  refine ⟨?_, ?_, ?_⟩ <;> intro h
  · rcases f with e | resp
    · simp [ollamaAdapter, wrapFailure] at h
    · rcases hok : resp.ok
      · simp [ollamaAdapter, wrapFailure, hok] at h
      · simp [ollamaAdapter, wrapFailure, hok] at h
        rw [← h]
        rfl
  · rcases f with e | resp
    · simp [vllmAdapter, wrapFailure] at h
    · rcases hok : resp.ok
      · simp [vllmAdapter, wrapFailure, hok] at h
      · rcases ht : truthy ((jget resp.data "choices").bind fun c => jindex c 0)
        · simp [vllmAdapter, wrapFailure, hok, ht] at h
        · simp [vllmAdapter, wrapFailure, hok, ht] at h
          rw [← h]
          rfl
  · rcases f with e | resp
    · simp [tgiAdapter, wrapFailure] at h
    · rcases hok : resp.ok
      · simp [tgiAdapter, wrapFailure, hok] at h
      · simp [tgiAdapter, wrapFailure, hok] at h
        rw [← h]
        rfl

/-- C3 witness: instantiation at a concrete successful Ollama call. -/
theorem c3_success_usage_shape_witness :
    ({ content := some "hello"
     , usage := [("prompt_tokens", 0), ("completion_tokens", 0), ("total_tokens", 0)] } :
        LLMRawResponse).usage.map usageKey
      = ["prompt_tokens", "completion_tokens", "total_tokens"] :=
  (c3_success_usage_shape exOpts (Except.ok exRespOllamaBare) _).1
    (by simp [ollamaAdapter, wrapFailure, exRespOllamaBare, jget, asStr, jsOrNum])

/-! ## C8 -/

/-- C8: on every failure path each adapter throws a wrapped error: a rejected
fetch is rethrown with the adapter-identifying message and the underlying
cause, a non-2xx response is rethrown with the adapter-identifying message
and the HTTP status, and every error result whatsoever starts with the
adapter-identifying tag (so no raw fetch rejection escapes unwrapped). -/
theorem c8_adapter_failure_wrapping (o : LLMCallOptions)
    (f : Except String HttpResponse) (resp : HttpResponse) (m : String) :
    (ollamaAdapter o (Except.error m)
        = Except.error ("Ollama adapter failed: " ++ m)
      ∧ vllmAdapter o (Except.error m)
        = Except.error ("vLLM adapter failed: " ++ m)
      ∧ tgiAdapter o (Except.error m)
        = Except.error ("TGI adapter failed: " ++ m))
    ∧ (resp.ok = false →
        ollamaAdapter o (Except.ok resp)
          = Except.error ("Ollama adapter failed: "
              ++ ("Ollama API error: " ++ toString resp.status ++ " " ++ resp.statusText))
        ∧ vllmAdapter o (Except.ok resp)
          = Except.error ("vLLM adapter failed: "
              ++ ("vLLM API error: " ++ toString resp.status ++ " " ++ resp.statusText))
        ∧ tgiAdapter o (Except.ok resp)
          = Except.error ("TGI adapter failed: "
              ++ ("TGI API error: " ++ toString resp.status ++ " " ++ resp.statusText)))
    ∧ (errorTagged "Ollama adapter failed: " (ollamaAdapter o f) = true
      ∧ errorTagged "vLLM adapter failed: " (vllmAdapter o f) = true
      ∧ errorTagged "TGI adapter failed: " (tgiAdapter o f) = true) := by
  refine ⟨⟨rfl, rfl, rfl⟩, ?_, ?_, ?_, ?_⟩
  · intro hbad
    refine ⟨?_, ?_, ?_⟩ <;>
      simp [ollamaAdapter, vllmAdapter, tgiAdapter, wrapFailure, hbad]
  · exact errorTagged_wrapFailure "Ollama adapter failed: " _
  · exact errorTagged_wrapFailure "vLLM adapter failed: " _
  · exact errorTagged_wrapFailure "TGI adapter failed: " _

/-- C8 witness: instantiation at a concrete rejected fetch and a concrete
non-2xx response. -/
theorem c8_adapter_failure_wrapping_witness :
    ollamaAdapter exOpts (Except.error "network down")
      = Except.error ("Ollama adapter failed: " ++ "network down")
    ∧ ollamaAdapter exOpts (Except.ok exRespServerError)
      = Except.error ("Ollama adapter failed: "
          ++ ("Ollama API error: " ++ toString exRespServerError.status ++ " "
              ++ exRespServerError.statusText))
    ∧ errorTagged "TGI adapter failed: "
        (tgiAdapter exOpts (Except.error "network down")) = true := by
  have h := c8_adapter_failure_wrapping exOpts (Except.error "network down")
    exRespServerError "network down"
  exact ⟨h.1.1, (h.2.1 rfl).1, h.2.2.2.2⟩

/-! ## C9 -/

/-- C9: for every 2xx backend response, the usage counters returned by the
Ollama and TGI adapters satisfy `total_tokens = prompt_tokens +
completion_tokens` exactly, and each counter defaults to `0` when the
corresponding response field is absent. -/
theorem c9_usage_totals (o : LLMCallOptions) (resp : HttpResponse) (p c t : ℚ) :
    (resp.ok = true →
      (usageVal (usageOf (ollamaAdapter o (Except.ok resp))) "prompt_tokens" = some p →
        usageVal (usageOf (ollamaAdapter o (Except.ok resp))) "completion_tokens" = some c →
        usageVal (usageOf (ollamaAdapter o (Except.ok resp))) "total_tokens" = some t →
        t = p + c)
      ∧ (jget resp.data "prompt_eval_count" = none →
          usageVal (usageOf (ollamaAdapter o (Except.ok resp))) "prompt_tokens" = some 0)
      ∧ (jget resp.data "eval_count" = none →
          usageVal (usageOf (ollamaAdapter o (Except.ok resp))) "completion_tokens" = some 0))
    ∧ (resp.ok = true →
      (usageVal (usageOf (tgiAdapter o (Except.ok resp))) "prompt_tokens" = some p →
        usageVal (usageOf (tgiAdapter o (Except.ok resp))) "completion_tokens" = some c →
        usageVal (usageOf (tgiAdapter o (Except.ok resp))) "total_tokens" = some t →
        t = p + c)
      ∧ ((jget resp.data "details").bind (fun d => jget d "prompt_tokens") = none →
          usageVal (usageOf (tgiAdapter o (Except.ok resp))) "prompt_tokens" = some 0)
      ∧ ((jget resp.data "details").bind (fun d => jget d "generated_tokens") = none →
          usageVal (usageOf (tgiAdapter o (Except.ok resp))) "completion_tokens" = some 0)) := by
  constructor
  · intro hok
    have hu : usageOf (ollamaAdapter o (Except.ok resp))
        = [ ("prompt_tokens", jsOrNum (jget resp.data "prompt_eval_count") 0)
          , ("completion_tokens", jsOrNum (jget resp.data "eval_count") 0)
          , ("total_tokens", jsOrNum (jget resp.data "prompt_eval_count") 0
              + jsOrNum (jget resp.data "eval_count") 0) ] := by
      simp [usageOf, ollamaAdapter, wrapFailure, hok]
    have hv1 : usageVal (usageOf (ollamaAdapter o (Except.ok resp))) "prompt_tokens"
        = some (jsOrNum (jget resp.data "prompt_eval_count") 0) := by
      rw [hu]; rfl
    have hv2 : usageVal (usageOf (ollamaAdapter o (Except.ok resp))) "completion_tokens"
        = some (jsOrNum (jget resp.data "eval_count") 0) := by
      rw [hu]; rfl
    have hv3 : usageVal (usageOf (ollamaAdapter o (Except.ok resp))) "total_tokens"
        = some (jsOrNum (jget resp.data "prompt_eval_count") 0
            + jsOrNum (jget resp.data "eval_count") 0) := by
      rw [hu]; rfl
    refine ⟨?_, ?_, ?_⟩
    · intro h1 h2 h3
      rw [hv1] at h1
      rw [hv2] at h2
      rw [hv3] at h3
      have hp := Option.some.inj h1
      have hc := Option.some.inj h2
      have ht := Option.some.inj h3
      rw [← hp, ← hc, ← ht]
    · intro habs
      rw [hv1, habs]
      rfl
    · intro habs
      rw [hv2, habs]
      rfl
  · intro hok
    have hu : usageOf (tgiAdapter o (Except.ok resp))
        = [ ("prompt_tokens",
              jsOrNum ((jget resp.data "details").bind (fun d => jget d "prompt_tokens")) 0)
          , ("completion_tokens",
              jsOrNum ((jget resp.data "details").bind (fun d => jget d "generated_tokens")) 0)
          , ("total_tokens",
              jsOrNum ((jget resp.data "details").bind (fun d => jget d "prompt_tokens")) 0
                + jsOrNum ((jget resp.data "details").bind (fun d => jget d "generated_tokens")) 0) ] := by
      simp [usageOf, tgiAdapter, wrapFailure, hok]
    have hv1 : usageVal (usageOf (tgiAdapter o (Except.ok resp))) "prompt_tokens"
        = some (jsOrNum ((jget resp.data "details").bind (fun d => jget d "prompt_tokens")) 0) := by
      rw [hu]; rfl
    have hv2 : usageVal (usageOf (tgiAdapter o (Except.ok resp))) "completion_tokens"
        = some (jsOrNum ((jget resp.data "details").bind (fun d => jget d "generated_tokens")) 0) := by
      rw [hu]; rfl
    have hv3 : usageVal (usageOf (tgiAdapter o (Except.ok resp))) "total_tokens"
        = some (jsOrNum ((jget resp.data "details").bind (fun d => jget d "prompt_tokens")) 0
            + jsOrNum ((jget resp.data "details").bind (fun d => jget d "generated_tokens")) 0) := by
      rw [hu]; rfl
    refine ⟨?_, ?_, ?_⟩
    · intro h1 h2 h3
      rw [hv1] at h1
      rw [hv2] at h2
      rw [hv3] at h3
      have hp := Option.some.inj h1
      have hc := Option.some.inj h2
      have ht := Option.some.inj h3
      rw [← hp, ← hc, ← ht]
    · intro habs
      rw [hv1, habs]
      rfl
    · intro habs
      rw [hv2, habs]
      rfl

/-- C9 witness: instantiation at a concrete Ollama response with no
token-count fields and a concrete TGI response with no `details` object. -/
theorem c9_usage_totals_witness :
    (0 : ℚ) = 0 + 0
    ∧ usageVal (usageOf (ollamaAdapter exOpts (Except.ok exRespOllamaBare)))
        "prompt_tokens" = some 0
    ∧ usageVal (usageOf (tgiAdapter exOpts (Except.ok exRespTgiObject)))
        "completion_tokens" = some 0 := by
  have h := c9_usage_totals exOpts exRespOllamaBare 0 0 0
  have h2 := c9_usage_totals exOpts exRespTgiObject 0 0 0
  refine ⟨?_, ?_, ?_⟩
  · exact (h.1 rfl).1
      (by simp [usageVal, usageOf, ollamaAdapter, wrapFailure, exRespOllamaBare,
        jget, asStr, jsOrNum])
      (by simp [usageVal, usageOf, ollamaAdapter, wrapFailure, exRespOllamaBare,
        jget, asStr, jsOrNum])
      (by simp [usageVal, usageOf, ollamaAdapter, wrapFailure, exRespOllamaBare,
        jget, asStr, jsOrNum])
  · exact (h.1 rfl).2.1 rfl
  · exact (h2.2 rfl).2.2 rfl

/-! ## C10 -/

/-- C10: when the messages array is empty or its first message lacks content,
each of the three adapters builds its request with the empty string as the
prompt/inputs field; moreover on any 2xx response the Ollama and TGI adapters
return successfully regardless of message content. -/
theorem c10_empty_message_content (o : LLMCallOptions) (resp : HttpResponse) :
    (o.messages.head?.bind (fun m => m.content) = none →
      (buildOllamaRequest o).prompt = ""
      ∧ (buildVllmRequest o).prompt = ""
      ∧ (buildTgiRequest o).inputs = "")
    ∧ (resp.ok = true →
        isAdapterFailure (ollamaAdapter o (Except.ok resp)) = false
        ∧ isAdapterFailure (tgiAdapter o (Except.ok resp)) = false) := by
  constructor
  · intro hempty
    have hfc : firstContent o = "" := by
      rw [firstContent_eq o, hempty]
      rfl
    exact ⟨hfc, hfc, hfc⟩
  · intro hok
    constructor <;>
      simp [ollamaAdapter, tgiAdapter, wrapFailure, isAdapterFailure, hok]

/-- C10 witness: instantiation at a concrete call with an empty messages
array and a concrete 2xx response. -/
theorem c10_empty_message_content_witness :
    (buildOllamaRequest exOptsNoMessages).prompt = ""
    ∧ (buildVllmRequest exOptsNoMessages).prompt = ""
    ∧ (buildTgiRequest exOptsNoMessages).inputs = ""
    ∧ isAdapterFailure (ollamaAdapter exOptsNoMessages (Except.ok exRespOllamaBare)) = false := by
  have h := c10_empty_message_content exOptsNoMessages exRespOllamaBare
  obtain ⟨h1, h2, h3⟩ := h.1 rfl
  exact ⟨h1, h2, h3, (h.2 rfl).1⟩

end ResearchToApp
